import Mathlib

/-!
Shallow embedding of the netlify-counter repository
(`src/counter-widget-optimized.js`).  The file holds two programs and a
deployment guide: the browser widget (`CacheManager`, `SessionManager`,
`fetchCounter`, `updateCounter`, the delayed auto-increment inside
`initCounter`, and the global `NetlifyCounter` API) and the serverless
Counter Service (`exports.handler`) backed by a PostgreSQL `counters`
table.  The table is modelled as a name-indexed map, browser storage as
name-indexed maps, and JS exceptions (for the never-throws claims) as
`Except` values.
-/

namespace NetlifyCounter

/-- CACHE_DURATION = 5 * 60 * 1000 (the 5-minute client cache TTL). -/
def CACHE_DURATION : Nat := 5 * 60 * 1000

/-- JS whitespace test used by `String.prototype.trim`, restricted to
the ASCII whitespace characters (all names in this development are
ASCII). -/
def jsWhitespace (c : Char) : Bool :=
  c = ' ' || c = '\t' || c = '\n' || c = '\r' || c = '\x0b' || c = '\x0c'

/-- JS `s.trim()`: strip leading and trailing whitespace. -/
def jsTrim (s : String) : String :=
  ⟨((s.data.dropWhile jsWhitespace).reverse.dropWhile jsWhitespace).reverse⟩

/-- ASCII lower-casing of one character, as JS `toLowerCase` acts on
the ASCII range. -/
def jsCharLower (c : Char) : Char :=
  if 'A' ≤ c && c ≤ 'Z' then Char.ofNat (c.toNat + 32) else c

/-- JS `s.toLowerCase()` (ASCII fragment). -/
def jsToLower (s : String) : String := ⟨s.data.map jsCharLower⟩

/-- JS `x || d` for an optional string `x`: both `undefined` (here
`none`) and the empty string are falsy and fall back to `d`. -/
def jsOr (x : Option String) (d : String) : String :=
  match x with
  | none => d
  | some s => if s = "" then d else s

/-- A `counters` row, restricted to the fields the claims are about
(`id` and the two timestamps play no role in any claim). -/
structure Row where
  name : String
  count : Nat
deriving DecidableEq

/-- The `counters` table: a name-indexed map to the stored count. -/
def Store := String → Option Nat

/-- The empty table. -/
def Store.empty : Store := fun _ => none

/-- Write one row: the effect of the handler's single-statement SQL
`INSERT`/`UPDATE`/upsert at key `n`. -/
def Store.put (s : Store) (n : String) (c : Nat) : Store :=
  fun k => if k = n then some c else s k

/-- A JSON response body produced by the handler: a counter row, an
error object `{error: ...}`, or no body (the OPTIONS branch). -/
inductive RespBody where
  | row (r : Row)
  | err (msg : String)
  | empty
deriving DecidableEq

/-- An HTTP response of the handler (headers are constant and carry no
claim-relevant information). -/
structure HResp where
  statusCode : Nat
  body : RespBody
deriving DecidableEq

/-- The `httpMethod` of a request. -/
inductive Method where
  | GET
  | POST
  | OPTIONS
  | other
deriving DecidableEq

/-- Request parameters after query-string / JSON decoding: both fields
may be absent. -/
structure ReqParams where
  counterName : Option String
  action : Option String
deriving DecidableEq

/-- The method/action dispatch of `exports.handler`, after parameter
decoding: validation of the (already trimmed) name, then the GET / POST
increment / POST reset / unsupported branches, each database statement
being one atomic `Store.put`. -/
def handlerCore (m : Method) (counterName action : String) (store : Store) :
    HResp × Store :=
  if counterName = "" ∨ counterName.length > 100 then
    (⟨400, .err "无效的 counterName (1-100字符)"⟩, store)
  else if m = .GET then
    match store counterName with
    | some c => (⟨200, .row ⟨counterName, c⟩⟩, store)
    | none => (⟨200, .row ⟨counterName, 0⟩⟩, Store.put store counterName 0)
  else if m = .POST then
    if action = "increment" then
      match store counterName with
      | some c => (⟨200, .row ⟨counterName, c + 1⟩⟩, Store.put store counterName (c + 1))
      | none => (⟨200, .row ⟨counterName, 1⟩⟩, Store.put store counterName 1)
    else if action = "reset" then
      match store counterName with
      | some _ => (⟨200, .row ⟨counterName, 0⟩⟩, Store.put store counterName 0)
      | none => (⟨200, .row ⟨counterName, 0⟩⟩, store)
    else (⟨400, .err "无效的 action，支持：increment, reset"⟩, store)
  else (⟨405, .err "方法不允许"⟩, store)

/-- `exports.handler`: `query` stands for `queryStringParameters`,
`postBody` for the JSON-decoded POST body (`none` means `JSON.parse`
failed), `store` for the `counters` table.  The database is taken as
reachable, so the catch-all 500 branch does not arise; GET parameters
need no parsing and cannot fail.  Name and action default via JS `||`
(so the empty string also falls back) and are trimmed, the action also
lower-cased, before dispatch. -/
def handler (m : Method) (query : ReqParams) (postBody : Option ReqParams)
    (store : Store) : HResp × Store :=
  if m = .OPTIONS then (⟨200, .empty⟩, store)
  else
    match (if m = .POST then postBody else some query) with
    | none => (⟨400, .err "请求体格式错误"⟩, store)
    | some params =>
      handlerCore m (jsTrim (jsOr params.counterName "default"))
        (jsToLower (jsTrim (jsOr params.action "get"))) store

/-- Parsed JSON data held by the client: a counter row, or any other
JSON object (e.g. a server error body, which carries no `count`
field).  Every such value is a JS object and hence truthy. -/
inductive JsonData where
  | row (r : Row)
  | errObj (msg : String)
deriving DecidableEq

/-- A localStorage cache entry `{ data, timestamp }`. -/
structure CacheEntry where
  data : JsonData
  timestamp : Nat
deriving DecidableEq

/-- The per-name view of localStorage under the keys
`netlify_counter_cache_<name>` (the key prefix is injective in the
name, so the map is indexed by the name itself). -/
def CacheMap := String → Option CacheEntry

/-- Empty local storage. -/
def CacheMap.empty : CacheMap := fun _ => none

namespace CacheManager

/-- CacheManager.clear: `localStorage.removeItem` for the entry of
`key`. -/
def clear (m : CacheMap) (key : String) : CacheMap :=
  fun k => if k = key then none else m k

/-- CacheManager.get: the cached data if an entry is present and not
expired; an entry strictly older than `CACHE_DURATION` is removed
(lazy eviction via `removeItem`) and reported absent.  Returns the data
found together with the storage after the access. -/
def get (m : CacheMap) (now : Nat) (key : String) : Option JsonData × CacheMap :=
  match m key with
  | none => (none, m)
  | some e =>
    if now - e.timestamp > CACHE_DURATION then (none, clear m key)
    else (some e.data, m)

/-- CacheManager.set: store `data` under `key` with the current time as
the timestamp. -/
def set (m : CacheMap) (now : Nat) (key : String) (d : JsonData) : CacheMap :=
  fun k => if k = key then some ⟨d, now⟩ else m k

end CacheManager

/-- The decoded sessionStorage object `{ name: true, ... }` under
`netlify_counter_session`. -/
def SessionMap := String → Bool

/-- Fresh session: no counter visited. -/
def SessionMap.empty : SessionMap := fun _ => false

namespace SessionManager

/-- SessionManager.hasVisited: `visited[name] === true`. -/
def hasVisited (s : SessionMap) (name : String) : Bool := s name

/-- SessionManager.markVisited: set the flag for `name` and write the
object back. -/
def markVisited (s : SessionMap) (name : String) : SessionMap :=
  fun k => if k = name then true else s k

end SessionManager

/-- Outcome of `await fetch(...)` followed by `await res.json()` as the
client sees it: a parsed JSON value (whatever the HTTP status code
was), or a transport/JSON failure (the fetch rejected, or the body was
not JSON), which throws into the caller's catch. -/
inductive NetOutcome where
  | ok (d : JsonData)
  | fail
deriving DecidableEq

/-- fetchCounter: serve from the cache when `CacheManager.get` finds
data; otherwise call the service's GET.  Returns the result, the cache
after the call, and whether the network was contacted. -/
def fetchCounter (o : NetOutcome) (m : CacheMap) (now : Nat) (name : String) :
    Option JsonData × CacheMap × Bool :=
  match CacheManager.get m now name with
  | (some d, m1) => (some d, m1, false)
  | (none, m1) =>
    match o with
    | .ok d => (some d, CacheManager.set m1 now name d, true)
    | .fail => (none, m1, true)

/-- updateCounter: always POSTs (never served from cache); when the
response parses, it clears the cached entry and returns the data; a
transport/parse failure lands in the catch, which returns null with the
cache untouched (the `CacheManager.clear` line was not reached). -/
def updateCounter (o : NetOutcome) (m : CacheMap) (name : String) :
    Option JsonData × CacheMap :=
  match o with
  | .ok d => (some d, CacheManager.clear m name)
  | .fail => (none, m)

/-- Observable result of the `setTimeout` callback in `initCounter`:
what was written into the counter element, and the cache and session
states afterwards. -/
structure TimeoutResult where
  rendered : Option JsonData
  cache : CacheMap
  session : SessionMap

/-- The delayed auto-increment scheduled by `initCounter`: run
`updateCounter(counterName, 'increment')`; when it returns data, write
the new count into the DOM and call `markVisited`; on null do
nothing. -/
def scheduledIncrement (o : NetOutcome) (m : CacheMap) (sess : SessionMap)
    (name : String) : TimeoutResult :=
  match updateCounter o m name with
  | (some d, m1) => ⟨some d, m1, SessionManager.markVisited sess name⟩
  | (none, m1) => ⟨none, m1, sess⟩

/-- Whether `initCounter` schedules the delayed auto-increment: only
when `fetchCounter` produced data (on null it renders the fallback and
returns early) and the session flag for the name is unset. -/
def initCounterSchedules (fetchResult : Option JsonData) (sess : SessionMap)
    (name : String) : Bool :=
  match fetchResult with
  | none => false
  | some _ => !SessionManager.hasVisited sess name

/-- Combined client cache + server store, for end-to-end runs over a
reliable transport. -/
structure Sys where
  cache : CacheMap
  store : Store

/-- `res.json()` applied to a handler response body. -/
def respToJson : RespBody → JsonData
  | .row r => .row r
  | .err msg => .errObj msg
  | .empty => .errObj ""

/-- fetchCounter wired to the Counter Service over a reliable
transport: a cache miss issues `GET ?counterName=<name>` against the
handler and caches the parsed body. -/
def sysFetch (s : Sys) (now : Nat) (name : String) :
    Option JsonData × Sys × Bool :=
  match CacheManager.get s.cache now name with
  | (some d, m1) => (some d, ⟨m1, s.store⟩, false)
  | (none, m1) =>
    match handler .GET ⟨some name, none⟩ none s.store with
    | (resp, store1) =>
      let d := respToJson resp.body
      (some d, ⟨CacheManager.set m1 now name d, store1⟩, true)

/-- updateCounter wired to the Counter Service over a reliable
transport: POST `{action, counterName}` against the handler, then clear
the cached entry and return the parsed body. -/
def sysUpdate (s : Sys) (name act : String) : Option JsonData × Sys :=
  match handler .POST ⟨none, none⟩ (some ⟨some name, some act⟩) s.store with
  | (resp, store1) =>
    (some (respToJson resp.body), ⟨CacheManager.clear s.cache name, store1⟩)

/-- The store transition of one `increment` POST for `name`. -/
def incrementOp (name : String) (sto : Store) : Store :=
  (handler .POST ⟨none, none⟩ (some ⟨some name, some "increment"⟩) sto).2

/-- Kinds of JS exception the storage / transport primitives can
raise: storage access denied or quota exceeded, `JSON.parse` failure,
transport failure. -/
inductive JsErr where
  | storageErr
  | parseErr
  | transportErr
deriving DecidableEq

/-- Whether an `Except`-modelled JS call returned normally (`true`)
rather than throwing. -/
def exOk {α : Type} : Except JsErr α → Bool
  | .ok _ => true
  | .error _ => false

/-- sessionStorage as `SessionManager` sees it: whether any access
throws (storage disabled), the raw string stored under
`netlify_counter_session`, the `JSON.parse` behaviour on it (`none`
models a parse throw), and whether `setItem` succeeds (quota). -/
structure SessionEnv where
  disabled : Bool
  item : Option String
  parse : String → Option SessionMap
  setOk : Bool

/-- The shared prelude of both SessionManager methods:
`const session = sessionStorage.getItem(SESSION_KEY);
const visited = session ? JSON.parse(session) : {};`
with each JS throw made explicit (the empty string is falsy and also
yields `{}`). -/
def sessionRead (env : SessionEnv) : Except JsErr SessionMap :=
  if env.disabled then .error .storageErr
  else
    match env.item with
    | none => .ok SessionMap.empty
    | some s =>
      if s = "" then .ok SessionMap.empty
      else
        match env.parse s with
        | some m => .ok m
        | none => .error .parseErr

/-- SessionManager.hasVisited with exceptions explicit: the source has
no try/catch here, so storage and parse failures propagate to the
caller. -/
def hasVisitedE (env : SessionEnv) (name : String) : Except JsErr Bool :=
  match sessionRead env with
  | .error e => .error e
  | .ok visited => .ok (visited name)

/-- SessionManager.markVisited with exceptions explicit (the value
returned is the object written back); again no try/catch in the
source, and `setItem` can throw on quota. -/
def markVisitedE (env : SessionEnv) (name : String) : Except JsErr SessionMap :=
  match sessionRead env with
  | .error e => .error e
  | .ok visited =>
    if env.setOk then .ok (fun k => if k = name then true else visited k)
    else .error .storageErr

/-- localStorage as `CacheManager` sees it for one counter name, plus
the current time. -/
structure CacheEnv where
  disabled : Bool
  item : Option String
  parse : String → Option CacheEntry
  setOk : Bool
  now : Nat

/-- The body of CacheManager.get's try block, throws explicit:
`getItem`, the falsy check, `JSON.parse`, the expiry check with
`removeItem`. -/
def cacheGetBody (env : CacheEnv) : Except JsErr (Option JsonData) :=
  if env.disabled then .error .storageErr
  else
    match env.item with
    | none => .ok none
    | some s =>
      if s = "" then .ok none
      else
        match env.parse s with
        | none => .error .parseErr
        | some e =>
          if env.now - e.timestamp > CACHE_DURATION then .ok none
          else .ok (some e.data)

/-- CacheManager.get as called: its try/catch turns any throw of the
body into a null return. -/
def cacheGetE (env : CacheEnv) : Except JsErr (Option JsonData) :=
  match cacheGetBody env with
  | .ok v => .ok v
  | .error _ => .ok none

/-- The body of CacheManager.set's try block (`setItem` serialization
never throws; storage access or quota can). -/
def cacheSetBody (env : CacheEnv) : Except JsErr Unit :=
  if env.disabled || !env.setOk then .error .storageErr else .ok ()

/-- CacheManager.set as called: its try/catch swallows the throw. -/
def cacheSetE (env : CacheEnv) : Except JsErr Unit :=
  match cacheSetBody env with
  | .ok u => .ok u
  | .error _ => .ok ()

/-- CacheManager.clear: a bare `removeItem` with no try/catch of its
own, so a disabled-storage throw propagates to the caller. -/
def clearE (env : CacheEnv) : Except JsErr Unit :=
  if env.disabled then .error .storageErr else .ok ()

/-- The browser environment one client call sees: the cache storage
and the combined `fetch` + `res.json()` outcome. -/
structure ClientEnv where
  cacheEnv : CacheEnv
  net : Except JsErr JsonData

/-- fetchCounter with exceptions explicit: the cache probe sits outside
the try block but cannot throw (it catches internally); the network
call and `CacheManager.set` sit inside the try, whose catch returns
null. -/
def fetchCounterE (env : ClientEnv) : Except JsErr (Option JsonData) :=
  match cacheGetE env.cacheEnv with
  | .error e => .error e
  | .ok (some d) => .ok (some d)
  | .ok none =>
    match env.net with
    | .ok d =>
      match cacheSetE env.cacheEnv with
      | .ok _ => .ok (some d)
      | .error _ => .ok none
    | .error _ => .ok none

/-- updateCounter with exceptions explicit: the POST, the JSON parse
and the bare `CacheManager.clear` all sit inside one try whose catch
returns null. -/
def updateCounterE (env : ClientEnv) : Except JsErr (Option JsonData) :=
  match env.net with
  | .error _ => .ok none
  | .ok d =>
    match clearE env.cacheEnv with
    | .ok _ => .ok (some d)
    | .error _ => .ok none

/-- Fixture: the cache after a fetch of "home" stored count 7 at time 0. -/
def c7cache : CacheMap := CacheManager.set CacheMap.empty 0 "home" (.row ⟨"home", 7⟩)

/-- Fixture: fresh client and fresh table. -/
def c1sys0 : Sys := ⟨CacheMap.empty, Store.empty⟩

/-- End-to-end scenario, step 1: first GET of "home" at time 0. -/
def c1step1 : Option JsonData × Sys × Bool := sysFetch c1sys0 0 "home"

/-- End-to-end scenario, step 2: the increment POST. -/
def c1step2 : Option JsonData × Sys := sysUpdate c1step1.2.1 "home" "increment"

/-- End-to-end scenario, step 3: the GET issued right after the
increment (time 1, well within the TTL of the step-1 fetch). -/
def c1step3 : Option JsonData × Sys × Bool := sysFetch c1step2.2 1 "home"

/-- End-to-end scenario, step 4: one more GET within the TTL. -/
def c1step4 : Option JsonData × Sys × Bool := sysFetch c1step3.2.1 2 "home"

/-- Fixture: a table holding a freshly created counter "home" at 0. -/
def c8store : Store := Store.put Store.empty "home" 0

/-- JS `x || d` keeps a non-empty string. -/
theorem jsOr_some_ne (s d : String) (h : s ≠ "") : jsOr (some s) d = s := by
  simp [jsOr, h]

/-- Reading back the row just written. -/
theorem Store.put_self (s : Store) (n : String) (c : Nat) : Store.put s n c n = some c := by
  simp [Store.put]

/-- Writing one row leaves every other row unchanged. -/
theorem Store.put_ne (s : Store) (n : String) (c : Nat) (k : String) (h : k ≠ n) :
    Store.put s n c k = s k := by
  simp [Store.put, h]

/-- A GET request reaches the dispatch with the defaulted, trimmed name
and the defaulted action "get". -/
theorem handler_get_name (sto : Store) (x : Option String) :
    handler .GET ⟨x, none⟩ none sto =
      handlerCore .GET (jsTrim (jsOr x "default")) (jsToLower (jsTrim "get")) sto := rfl

/-- A POST request reaches the dispatch with the defaulted, trimmed
name and the defaulted, trimmed, lower-cased action. -/
theorem handler_post_name (sto : Store) (x : Option String) (act : Option String) :
    handler .POST ⟨none, none⟩ (some ⟨x, act⟩) sto =
      handlerCore .POST (jsTrim (jsOr x "default")) (jsToLower (jsTrim (jsOr act "get"))) sto := rfl

/-- GET on an already-trimmed valid name: return the row, creating it
at count 0 when absent. -/
theorem handler_get_valid (sto : Store) (name : String) (h1 : jsTrim name = name)
    (h2 : name ≠ "") (h3 : name.length ≤ 100) :
    handler .GET ⟨some name, none⟩ none sto =
      match sto name with
      | some c => (⟨200, .row ⟨name, c⟩⟩, sto)
      | none => (⟨200, .row ⟨name, 0⟩⟩, Store.put sto name 0) := by
  have hv : ¬(name = "" ∨ name.length > 100) := by
    push_neg
    exact ⟨h2, by omega⟩
  rw [handler_get_name, jsOr_some_ne _ _ h2, h1]
  unfold handlerCore
  rw [if_neg hv]
  rfl

/-- POST increment on an already-trimmed valid name: bump the row, or
create it at count 1 when absent. -/
theorem handler_increment_valid (sto : Store) (name : String) (h1 : jsTrim name = name)
    (h2 : name ≠ "") (h3 : name.length ≤ 100) :
    handler .POST ⟨none, none⟩ (some ⟨some name, some "increment"⟩) sto =
      match sto name with
      | some c => (⟨200, .row ⟨name, c + 1⟩⟩, Store.put sto name (c + 1))
      | none => (⟨200, .row ⟨name, 1⟩⟩, Store.put sto name 1) := by
  have hv : ¬(name = "" ∨ name.length > 100) := by
    push_neg
    exact ⟨h2, by omega⟩
  rw [handler_post_name, jsOr_some_ne _ _ h2, h1]
  have hact : jsToLower (jsTrim (jsOr (some "increment") "get")) = "increment" := by decide
  rw [hact]
  unfold handlerCore
  rw [if_neg hv]
  rfl

/-- POST reset on an already-trimmed valid name: zero the row, or
return a synthetic zero row without creating one when absent. -/
theorem handler_reset_valid (sto : Store) (name : String) (h1 : jsTrim name = name)
    (h2 : name ≠ "") (h3 : name.length ≤ 100) :
    handler .POST ⟨none, none⟩ (some ⟨some name, some "reset"⟩) sto =
      match sto name with
      | some _ => (⟨200, .row ⟨name, 0⟩⟩, Store.put sto name 0)
      | none => (⟨200, .row ⟨name, 0⟩⟩, sto) := by
  have hv : ¬(name = "" ∨ name.length > 100) := by
    push_neg
    exact ⟨h2, by omega⟩
  rw [handler_post_name, jsOr_some_ne _ _ h2, h1]
  have hact : jsToLower (jsTrim (jsOr (some "reset") "get")) = "reset" := by decide
  rw [hact]
  unfold handlerCore
  rw [if_neg hv]
  rfl

/-- POST with the unsupported action "bogus" on a valid name: 400 with
an error body, table untouched. -/
theorem handler_bogus_valid (sto : Store) (name : String) (h1 : jsTrim name = name)
    (h2 : name ≠ "") (h3 : name.length ≤ 100) :
    handler .POST ⟨none, none⟩ (some ⟨some name, some "bogus"⟩) sto =
      (⟨400, .err "无效的 action，支持：increment, reset"⟩, sto) := by
  have hv : ¬(name = "" ∨ name.length > 100) := by
    push_neg
    exact ⟨h2, by omega⟩
  rw [handler_post_name, jsOr_some_ne _ _ h2, h1]
  have hact : jsToLower (jsTrim (jsOr (some "bogus") "get")) = "bogus" := by decide
  rw [hact]
  unfold handlerCore
  rw [if_neg hv]
  rfl

/-- One increment POST bumps the stored count of its own name by one. -/
theorem incrementOp_self (name : String) (h1 : jsTrim name = name) (h2 : name ≠ "")
    (h3 : name.length ≤ 100) (sto : Store) (c : Nat) (hc : sto name = some c) :
    incrementOp name sto name = some (c + 1) := by
  unfold incrementOp
  rw [handler_increment_valid sto name h1 h2 h3]
  simp only [hc]
  exact Store.put_self sto name (c + 1)

/-- N increment POSTs in sequence add N to the stored count. -/
theorem incrementOp_iter (name : String) (h1 : jsTrim name = name) (h2 : name ≠ "")
    (h3 : name.length ≤ 100) :
    ∀ (N : Nat) (sto : Store) (c : Nat), sto name = some c →
      (incrementOp name)^[N] sto name = some (c + N) := by
  intro N
  induction N with
  | zero => intro sto c hc; simpa using hc
  | succ n ih =>
    intro sto c hc
    rw [Function.iterate_succ_apply]
    have hstep : (incrementOp name sto) name = some (c + 1) :=
      incrementOp_self name h1 h2 h3 sto c hc
    have := ih (incrementOp name sto) (c + 1) hstep
    rw [this]
    congr 1
    omega

/-- C1, counterexample to the claim as stated: in the end-to-end run
(fresh system; GET "home" at time 0; successful increment POST; GET
"home" at time 1, well within the TTL), the increment purged the cache
entry, so the GET right after it does contact the service
(`c1step3.2.2 = true`), returning the fresh count 1 — not the claimed
cached count with no network call. -/
theorem c1_counterexample :
    c1step2.1 = some (.row ⟨"home", 1⟩) ∧
    c1step3.1 = some (.row ⟨"home", 1⟩) ∧
    c1step3.2.2 = true := by decide

/-- C1, amended: a cached `fetchCounter` result is reused, with no
service contact and no cache change, for any call within 5 minutes of
the prior successful fetch; an `updateCounter` whose response was
received purges the entry (a transport-failed one leaves the cache
intact); and in the end-to-end scenario the GET right after the
successful increment POST contacts the service, returns the fresh
count 1 and re-caches it, after which a further GET within the TTL
returns the cached count 1 with no network call. -/
theorem c1_cache_reuse :
    (∀ (m : CacheMap) (sto : Store) (now : Nat) (name : String) (e : CacheEntry),
      m name = some e → now - e.timestamp ≤ CACHE_DURATION →
      sysFetch ⟨m, sto⟩ now name = (some e.data, ⟨m, sto⟩, false)) ∧
    (∀ (m : CacheMap) (name : String) (d : JsonData),
      (updateCounter (.ok d) m name).2 name = none) ∧
    (∀ (m : CacheMap) (name : String), updateCounter .fail m name = (none, m)) ∧
    (c1step1.1 = some (.row ⟨"home", 0⟩) ∧ c1step2.1 = some (.row ⟨"home", 1⟩) ∧
      c1step3.1 = some (.row ⟨"home", 1⟩) ∧ c1step3.2.2 = true ∧
      c1step4.1 = some (.row ⟨"home", 1⟩) ∧ c1step4.2.2 = false) := by
  refine ⟨?_, ?_, ?_, ?_⟩
  · intro m sto now name e he hfresh
    have hne : ¬(now - e.timestamp > CACHE_DURATION) := by omega
    simp [sysFetch, CacheManager.get, he, hne]
  · intro m name d
    simp [updateCounter, CacheManager.clear]
  · intro m name
    rfl
  · decide

/-- C1, witness: a concrete cache entry stored at time 3 is served at
time 7 with no network call and no cache change. -/
theorem c1_witness :
    sysFetch ⟨CacheManager.set CacheMap.empty 3 "home" (.row ⟨"home", 5⟩), Store.empty⟩ 7 "home"
      = (some (.row ⟨"home", 5⟩),
        ⟨CacheManager.set CacheMap.empty 3 "home" (.row ⟨"home", 5⟩), Store.empty⟩, false) := by
  have H := c1_cache_reuse
  exact H.1 (CacheManager.set CacheMap.empty 3 "home" (.row ⟨"home", 5⟩)) Store.empty 7 "home"
    ⟨.row ⟨"home", 5⟩, 3⟩ rfl (by decide)

/-- C2, counterexample to the claim as stated: a GET with an empty
`counterName` parameter is NOT rejected with 400 — the empty string is
falsy, falls back to the name "default", and the request succeeds with
200 (here creating the "default" row at count 0). -/
theorem c2_counterexample :
    (handler .GET ⟨some "", none⟩ none Store.empty).1 = ⟨200, .row ⟨"default", 0⟩⟩ := by decide

/-- C2, amended: a name that trims to empty (e.g. whitespace-only) or
whose trimmed length exceeds 100 characters is rejected with 400 and
the error body, on GET and on POST alike; an empty `counterName`
parameter behaves exactly like a missing one — it falls back to the
counter "default" and the GET returns 200. -/
theorem c2_name_validation (sto : Store) (s : String) :
    (s ≠ "" → jsTrim s = "" ∨ (jsTrim s).length > 100 →
      (handler .GET ⟨some s, none⟩ none sto).1 = ⟨400, .err "无效的 counterName (1-100字符)"⟩ ∧
      (handler .POST ⟨none, none⟩ (some ⟨some s, some "increment"⟩) sto).1 =
        ⟨400, .err "无效的 counterName (1-100字符)"⟩) ∧
    handler .GET ⟨some "", none⟩ none sto = handler .GET ⟨none, none⟩ none sto ∧
    (handler .GET ⟨some "", none⟩ none sto).1.statusCode = 200 := by
  refine ⟨?_, rfl, ?_⟩
  · intro hs hbad
    rw [handler_get_name, handler_post_name, jsOr_some_ne _ _ hs]
    unfold handlerCore
    rw [if_pos hbad, if_pos hbad]
    exact ⟨rfl, rfl⟩
  · have hdq : handler .GET ⟨some "", none⟩ none sto
        = handler .GET ⟨some "default", none⟩ none sto := rfl
    rw [hdq, handler_get_valid sto "default" (by decide) (by decide) (by decide)]
    rcases hsd : sto "default" with _ | c <;> simp [hsd]

/-- C2, witness: the whitespace-only name " " trims to empty and is
rejected with 400 on both verbs. -/
theorem c2_witness :
    (handler .GET ⟨some " ", none⟩ none Store.empty).1
      = ⟨400, .err "无效的 counterName (1-100字符)"⟩ ∧
    (handler .POST ⟨none, none⟩ (some ⟨some " ", some "increment"⟩) Store.empty).1
      = ⟨400, .err "无效的 counterName (1-100字符)"⟩ := by
  have H := c2_name_validation Store.empty " "
  exact H.1 (by decide) (Or.inl (by decide))

/-- C3: in the delayed auto-increment, when the session flag for the
name is unset, a non-null `updateCounter` result updates the rendered
count in place and sets the session flag; `markVisited` is called
exactly when `updateCounter` returned data; on a failed call the
session is left untouched, the flag stays false, and a later reload in
the same session schedules the increment again. -/
theorem c3_session_flag (m : CacheMap) (sess : SessionMap) (name : String) (d : JsonData)
    (h : SessionManager.hasVisited sess name = false) :
    (scheduledIncrement (.ok d) m sess name).rendered = some d ∧
    SessionManager.hasVisited (scheduledIncrement (.ok d) m sess name).session name = true ∧
    (∀ o : NetOutcome, SessionManager.hasVisited (scheduledIncrement o m sess name).session name
      = (updateCounter o m name).1.isSome) ∧
    (scheduledIncrement .fail m sess name).session = sess ∧
    initCounterSchedules (some d) (scheduledIncrement .fail m sess name).session name = true := by
  have h' : sess name = false := h
  refine ⟨rfl, ?_, ?_, rfl, ?_⟩
  · simp [scheduledIncrement, updateCounter, SessionManager.hasVisited, SessionManager.markVisited]
  · intro o
    cases o <;>
      simp [scheduledIncrement, updateCounter, SessionManager.hasVisited,
        SessionManager.markVisited, h']
  · simp [initCounterSchedules, scheduledIncrement, updateCounter,
      SessionManager.hasVisited, h']

/-- C3, witness: in a fresh session, a successful increment renders the
returned row and sets the flag for "home". -/
theorem c3_witness :
    (scheduledIncrement (.ok (.row ⟨"home", 1⟩)) CacheMap.empty SessionMap.empty "home").rendered
      = some (.row ⟨"home", 1⟩) ∧
    SessionManager.hasVisited
      (scheduledIncrement (.ok (.row ⟨"home", 1⟩)) CacheMap.empty SessionMap.empty "home").session
      "home" = true := by
  have H := c3_session_flag CacheMap.empty SessionMap.empty "home" (.row ⟨"home", 1⟩) rfl
  exact ⟨H.1, H.2.1⟩

/-- C4, counterexample to the claim as stated: `SessionManager` has no
try/catch, so `hasVisited` throws when the stored session string is not
JSON (`JSON.parse` raises) or when sessionStorage access itself raises,
and `markVisited` throws likewise, instead of degrading to a fallback. -/
theorem c4_counterexample :
    hasVisitedE ⟨false, some "not-json", fun _ => none, true⟩ "home" = .error .parseErr ∧
    hasVisitedE ⟨true, none, fun _ => none, true⟩ "home" = .error .storageErr ∧
    markVisitedE ⟨false, some "not-json", fun _ => none, true⟩ "home" = .error .parseErr :=
  ⟨rfl, rfl, rfl⟩

/-- C4, amended: `fetchCounter`, `updateCounter`, `CacheManager.get`
and `CacheManager.set` never throw to their callers — every storage or
transport failure is caught and degrades to null or is swallowed — but
`SessionManager.hasVisited`/`markVisited` and `CacheManager.clear` are
unguarded and propagate storage/JSON exceptions. -/
theorem c4_no_throw :
    (∀ env : ClientEnv, exOk (fetchCounterE env) = true ∧ exOk (updateCounterE env) = true ∧
      exOk (cacheGetE env.cacheEnv) = true ∧ exOk (cacheSetE env.cacheEnv) = true) ∧
    exOk (hasVisitedE ⟨true, none, fun _ => none, true⟩ "home") = false ∧
    exOk (markVisitedE ⟨true, none, fun _ => none, true⟩ "home") = false ∧
    exOk (clearE ⟨true, none, fun _ => none, true, 0⟩) = false := by
  refine ⟨?_, rfl, rfl, rfl⟩
  intro env
  have hget : ∀ ce : CacheEnv, ∃ v, cacheGetE ce = .ok v := by
    intro ce
    unfold cacheGetE
    cases cacheGetBody ce <;> exact ⟨_, rfl⟩
  have hset : ∀ ce : CacheEnv, ∃ u, cacheSetE ce = .ok u := by
    intro ce
    unfold cacheSetE
    cases cacheSetBody ce <;> exact ⟨_, rfl⟩
  obtain ⟨v, hv⟩ := hget env.cacheEnv
  obtain ⟨u, hu⟩ := hset env.cacheEnv
  refine ⟨?_, ?_, by simp [hv, exOk], by simp [hu, exOk]⟩
  · unfold fetchCounterE
    rw [hv]
    rcases v with _ | d
    · cases henv : env.net
      · simp [exOk]
      · rw [hu]
        simp [exOk]
    · simp [exOk]
  · unfold updateCounterE
    cases henv : env.net
    · simp [exOk]
    · cases hcl : clearE env.cacheEnv <;> simp [exOk]

/-- C5: for every valid (already-trimmed) name, GET on an absent name
creates the row at count 0 and returns it, and a repeated GET with no
intervening mutation returns the same response and leaves the table
unchanged — `get` is idempotent. -/
theorem c5_get_idempotent (sto : Store) (name : String)
    (h1 : jsTrim name = name) (h2 : name ≠ "") (h3 : name.length ≤ 100) :
    (sto name = none →
      (handler .GET ⟨some name, none⟩ none sto).1 = ⟨200, .row ⟨name, 0⟩⟩ ∧
      (handler .GET ⟨some name, none⟩ none sto).2 name = some 0) ∧
    (handler .GET ⟨some name, none⟩ none ((handler .GET ⟨some name, none⟩ none sto).2)).1 =
      (handler .GET ⟨some name, none⟩ none sto).1 ∧
    (handler .GET ⟨some name, none⟩ none ((handler .GET ⟨some name, none⟩ none sto).2)).2 =
      (handler .GET ⟨some name, none⟩ none sto).2 := by
  rcases hsn : sto name with _ | c
  · simp only [handler_get_valid sto name h1 h2 h3,
      handler_get_valid (Store.put sto name 0) name h1 h2 h3, hsn, Store.put_self]
    simp
  · simp only [handler_get_valid sto name h1 h2 h3, hsn]
    simp

/-- C5, witness: on the empty table, GET "home" creates the row at 0
and a second GET returns the same response. -/
theorem c5_witness :
    (handler .GET ⟨some "home", none⟩ none Store.empty).1 = ⟨200, .row ⟨"home", 0⟩⟩ ∧
    (handler .GET ⟨some "home", none⟩ none Store.empty).2 "home" = some 0 ∧
    (handler .GET ⟨some "home", none⟩ none
        ((handler .GET ⟨some "home", none⟩ none Store.empty).2)).1 =
      (handler .GET ⟨some "home", none⟩ none Store.empty).1 := by
  have H := c5_get_idempotent Store.empty "home" (by decide) (by decide) (by decide)
  exact ⟨(H.1 rfl).1, (H.1 rfl).2, H.2.1⟩

/-- C6: for every valid (already-trimmed) name, reset returns a
zero-count row with status 200; an existing row is set to 0, an absent
name gets a synthetic zero record with the table untouched; and in
either case a following GET returns count 0. -/
theorem c6_reset_semantics (sto : Store) (name : String)
    (h1 : jsTrim name = name) (h2 : name ≠ "") (h3 : name.length ≤ 100) :
    (handler .POST ⟨none, none⟩ (some ⟨some name, some "reset"⟩) sto).1 = ⟨200, .row ⟨name, 0⟩⟩ ∧
    (sto name = none → (handler .POST ⟨none, none⟩ (some ⟨some name, some "reset"⟩) sto).2 = sto) ∧
    (∀ c, sto name = some c →
      (handler .POST ⟨none, none⟩ (some ⟨some name, some "reset"⟩) sto).2 name = some 0) ∧
    (handler .GET ⟨some name, none⟩ none
        ((handler .POST ⟨none, none⟩ (some ⟨some name, some "reset"⟩) sto).2)).1 =
      ⟨200, .row ⟨name, 0⟩⟩ := by
  rcases hsn : sto name with _ | c
  · simp only [handler_reset_valid sto name h1 h2 h3,
      handler_get_valid sto name h1 h2 h3, hsn]
    simp
  · simp only [handler_reset_valid sto name h1 h2 h3, hsn,
      handler_get_valid (Store.put sto name 0) name h1 h2 h3, Store.put_self]
    simp

/-- C6, witness: reset of the absent "home" returns the synthetic zero
row, creates nothing, and the following GET returns count 0. -/
theorem c6_witness :
    (handler .POST ⟨none, none⟩ (some ⟨some "home", some "reset"⟩) Store.empty).1
      = ⟨200, .row ⟨"home", 0⟩⟩ ∧
    (handler .POST ⟨none, none⟩ (some ⟨some "home", some "reset"⟩) Store.empty).2 = Store.empty ∧
    (handler .GET ⟨some "home", none⟩ none
        ((handler .POST ⟨none, none⟩ (some ⟨some "home", some "reset"⟩) Store.empty).2)).1
      = ⟨200, .row ⟨"home", 0⟩⟩ := by
  have H := c6_reset_semantics Store.empty "home" (by decide) (by decide) (by decide)
  exact ⟨H.1, H.2.1 rfl, H.2.2.2⟩

/-- C7, counterexample to the claim as stated: an entry aged exactly
the TTL (stored at 0, read at CACHE_DURATION) is NOT strictly younger
than the TTL, yet `fetchCounter` still serves it from the cache with no
network use — even over a failing transport — because expiry uses a
strict comparison. -/
theorem c7_counterexample :
    fetchCounter .fail c7cache CACHE_DURATION "home"
      = (some (.row ⟨"home", 7⟩), c7cache, false) ∧
    ¬(CACHE_DURATION - (0 : Nat) < CACHE_DURATION) := by
  constructor
  · rfl
  · decide

/-- C7, amended: an entry strictly older than the 5-minute TTL is
treated as absent and lazily purged on access; `fetchCounter` serves
the cache exactly when an entry is present and aged at most the TTL
(the boundary instant included), otherwise it performs the GET, stores
the result under a fresh timestamp and returns it; on transport failure
it returns null, leaving an absent cache absent (an unexpired entry is
served before any transport is attempted). -/
theorem c7_ttl (m : CacheMap) (now : Nat) (name : String) :
    (∀ e, m name = some e → now - e.timestamp > CACHE_DURATION →
      CacheManager.get m now name = (none, CacheManager.clear m name)) ∧
    (∀ e, m name = some e → now - e.timestamp ≤ CACHE_DURATION →
      ∀ o, fetchCounter o m now name = (some e.data, m, false)) ∧
    (m name = none → ∀ d, fetchCounter (.ok d) m now name
      = (some d, CacheManager.set m now name d, true)) ∧
    (∀ e, m name = some e → now - e.timestamp > CACHE_DURATION → ∀ d,
      fetchCounter (.ok d) m now name
        = (some d, CacheManager.set (CacheManager.clear m name) now name d, true)) ∧
    (m name = none → fetchCounter .fail m now name = (none, m, true)) ∧
    (∀ o, (m name = none ∨ ∃ e, m name = some e ∧ now - e.timestamp > CACHE_DURATION) →
      (fetchCounter o m now name).2.2 = true) := by
  refine ⟨?_, ?_, ?_, ?_, ?_, ?_⟩
  · intro e he hexp
    simp [CacheManager.get, he, hexp]
  · intro e he hfresh o
    have hne : ¬(now - e.timestamp > CACHE_DURATION) := by omega
    simp [fetchCounter, CacheManager.get, he, hne]
  · intro hnone d
    simp [fetchCounter, CacheManager.get, hnone]
  · intro e he hexp d
    simp [fetchCounter, CacheManager.get, he, hexp]
  · intro hnone
    simp [fetchCounter, CacheManager.get, hnone]
  · intro o hmiss
    rcases hmiss with hnone | ⟨e, he, hexp⟩
    · cases o <;> simp [fetchCounter, CacheManager.get, hnone]
    · cases o <;> simp [fetchCounter, CacheManager.get, he, hexp]

/-- C7, witness: the entry stored at time 0 is served at time 7 from
the cache with no network use, even over a failing transport. -/
theorem c7_witness :
    fetchCounter .fail c7cache 7 "home" = (some (.row ⟨"home", 7⟩), c7cache, false) := by
  have H := c7_ttl c7cache 7 "home"
  exact H.2.1 ⟨.row ⟨"home", 7⟩, 0⟩ rfl (by decide) .fail

/-- C8: every increment is a single atomic SQL statement (update, or
insert-on-conflict upsert), never read-then-write, so an execution of N
concurrent increment calls is some serial order of N atomic increment
transitions; for every valid name, N such transitions starting from a
freshly created counter (count 0) end at exactly N — no increment is
lost — and increments of other names never disturb this counter. -/
theorem c8_concurrent_increments (N : Nat) (sto : Store) (name : String)
    (h1 : jsTrim name = name) (h2 : name ≠ "") (h3 : name.length ≤ 100) :
    (sto name = some 0 → (incrementOp name)^[N] sto name = some N) ∧
    (∀ other : String, jsTrim other = other → other ≠ "" → other.length ≤ 100 →
      name ≠ other → incrementOp other sto name = sto name) := by
  constructor
  · intro h0
    have := incrementOp_iter name h1 h2 h3 N sto 0 h0
    simpa using this
  · intro other g1 g2 g3 hne
    unfold incrementOp
    rw [handler_increment_valid sto other g1 g2 g3]
    rcases hso : sto other with _ | c
    · simp only [hso]
      exact Store.put_ne sto other 1 name hne
    · simp only [hso]
      exact Store.put_ne sto other (c + 1) name hne

/-- C8, witness: three increments of the fresh counter "home" end at
count 3. -/
theorem c8_witness : (incrementOp "home")^[3] c8store "home" = some 3 := by
  have H := c8_concurrent_increments 3 c8store "home" (by decide) (by decide) (by decide)
  exact H.1 rfl

/-- C9: a request with no `counterName` at all is not rejected — it
operates on the counter literally named "default" and succeeds — and
names are trimmed before validation and lookup, so any two spellings
with the same trimmed form address the same counter on GET and POST. -/
theorem c9_default_and_trim (sto : Store) :
    handler .GET ⟨none, none⟩ none sto = handler .GET ⟨some "default", none⟩ none sto ∧
    (∃ c, (handler .GET ⟨none, none⟩ none sto).1 = ⟨200, .row ⟨"default", c⟩⟩) ∧
    handler .POST ⟨none, none⟩ (some ⟨none, some "increment"⟩) sto =
      handler .POST ⟨none, none⟩ (some ⟨some "default", some "increment"⟩) sto ∧
    (∀ s t : String, s ≠ "" → t ≠ "" → jsTrim s = jsTrim t →
      handler .GET ⟨some s, none⟩ none sto = handler .GET ⟨some t, none⟩ none sto ∧
      handler .POST ⟨none, none⟩ (some ⟨some s, some "increment"⟩) sto =
        handler .POST ⟨none, none⟩ (some ⟨some t, some "increment"⟩) sto) := by
  refine ⟨rfl, ?_, rfl, ?_⟩
  · have hdq : handler .GET ⟨none, none⟩ none sto
        = handler .GET ⟨some "default", none⟩ none sto := rfl
    rw [hdq, handler_get_valid sto "default" (by decide) (by decide) (by decide)]
    rcases hsd : sto "default" with _ | c
    · simp only [hsd]
      exact ⟨0, rfl⟩
    · simp only [hsd]
      exact ⟨c, rfl⟩
  · intro s t hs ht hst
    constructor
    · rw [handler_get_name sto (some s), handler_get_name sto (some t),
        jsOr_some_ne _ _ hs, jsOr_some_ne _ _ ht, hst]
    · rw [handler_post_name sto (some s), handler_post_name sto (some t),
        jsOr_some_ne _ _ hs, jsOr_some_ne _ _ ht, hst]

/-- C9, witness: " home " and "home" address the same counter. -/
theorem c9_witness :
    handler .GET ⟨some " home ", none⟩ none Store.empty
      = handler .GET ⟨some "home", none⟩ none Store.empty := by
  have H := c9_default_and_trim Store.empty
  exact (H.2.2.2 " home " "home" (by decide) (by decide) (by decide)).1

/-- C10: both client helpers hand back whatever JSON body arrived,
regardless of the HTTP status — a server error body is returned as a
truthy object with no count field, not as null; only a transport or
JSON-parse failure yields null; and `updateCounter` purges the cached
entry even when the server replied with a 400 error body (shown on the
unsupported action "bogus" end to end). -/
theorem c10_error_bodies (m : CacheMap) (name msg : String) (now : Nat) :
    updateCounter (.ok (.errObj msg)) m name = (some (.errObj msg), CacheManager.clear m name) ∧
    updateCounter .fail m name = (none, m) ∧
    (m name = none → fetchCounter (.ok (.errObj msg)) m now name
      = (some (.errObj msg), CacheManager.set m now name (.errObj msg), true)) ∧
    (m name = none → fetchCounter .fail m now name = (none, m, true)) ∧
    (∀ s : Sys, jsTrim name = name → name ≠ "" → name.length ≤ 100 →
      sysUpdate s name "bogus" =
        (some (.errObj "无效的 action，支持：increment, reset"),
          ⟨CacheManager.clear s.cache name, s.store⟩)) := by
  refine ⟨rfl, rfl, ?_, ?_, ?_⟩
  · intro hnone
    simp [fetchCounter, CacheManager.get, hnone]
  · intro hnone
    simp [fetchCounter, CacheManager.get, hnone]
  · intro s h1 h2 h3
    simp [sysUpdate, handler_bogus_valid s.store name h1 h2 h3, respToJson]

/-- C10, witness: a fetched error body is returned and cached as data,
and a POST with the unsupported action "bogus" returns the truthy 400
error body while still purging the cached entry. -/
theorem c10_witness :
    fetchCounter (.ok (.errObj "server error")) CacheMap.empty 0 "home"
      = (some (.errObj "server error"),
        CacheManager.set CacheMap.empty 0 "home" (.errObj "server error"), true) ∧
    sysUpdate ⟨CacheMap.empty, Store.empty⟩ "home" "bogus"
      = (some (.errObj "无效的 action，支持：increment, reset"),
        ⟨CacheManager.clear CacheMap.empty "home", Store.empty⟩) := by
  have H := c10_error_bodies CacheMap.empty "home" "server error" 0
  exact ⟨H.2.2.1 rfl, H.2.2.2.2 ⟨CacheMap.empty, Store.empty⟩ (by decide) (by decide) (by decide)⟩

end NetlifyCounter
